import Mathlib

/-!
Verification of the multi-stream quality decision core of the `pingtest`
repository: a shallow embedding of `src/js/multi-stream-stats.js`
(`MultiStreamStatsCollector`, namespace `MSS` below) and
`src/js/smart-quality-controller.js` (`SmartQualityController`,
namespace `SQC` below), together with theorems settling the claims
about strategy selection, recommendation generation, network
assessment, confidence scoring, layout tiering and the stream
registry lifecycle.

Numbers are modelled as exact rationals; JS `Map` objects are modelled
as association lists with insertion-order semantics; `Date.now()` is an
explicit `now` parameter.
-/

namespace PingTest

/-- JS `Math.round`: round half toward positive infinity. -/
def jsRound (q : ℚ) : ℤ := ⌊q + 1/2⌋

/-- JS `x || d` for a numeric `x` (`0` is falsy). -/
def orD (x d : ℚ) : ℚ := if x = 0 then d else x

/-- JS `x?.f || d` for an optional numeric chain (`undefined` and `0` falsy). -/
def orOptD (x : Option ℚ) (d : ℚ) : ℚ :=
  match x with
  | some v => if v = 0 then d else v
  | none => d

/-- JS `q.toFixed(1)` followed by `parseFloat`, under exact decimal
arithmetic: round to the nearest tenth. -/
def jsToFixed1 (q : ℚ) : ℚ := (jsRound (q * 10) : ℚ) / 10

/-- JS `q.toFixed(2)` followed by `parseFloat`, under exact decimal
arithmetic: round to the nearest hundredth. -/
def jsToFixed2 (q : ℚ) : ℚ := (jsRound (q * 100) : ℚ) / 100

/-- `Map.get`: first binding of the key, if any. -/
def mapGet {α : Type} (m : List (String × α)) (k : String) : Option α :=
  (m.find? (fun p => decide (p.1 = k))).map (·.2)

/-- `Map.set`: replace the binding in place if the key is present
(JS `Map` keeps the original insertion position), else append. -/
def mapSet {α : Type} (m : List (String × α)) (k : String) (v : α) : List (String × α) :=
  if m.any (fun p => decide (p.1 = k)) then
    m.map (fun p => if p.1 = k then (k, v) else p)
  else m ++ [(k, v)]

/-- `Map.delete`: drop every binding of the key. -/
def mapDelete {α : Type} (m : List (String × α)) (k : String) : List (String × α) :=
  m.filter (fun p => decide (p.1 ≠ k))

theorem find_set_self {α : Type} (m : List (String × α)) (k : String) (v : α)
    (h : (m.any fun p => decide (p.1 = k)) = true) :
    ((m.map fun p => if p.1 = k then (k, v) else p).find? fun p => decide (p.1 = k))
      = some (k, v) := by
  induction m with
  | nil => simp at h
  | cons p t ih =>
    by_cases hp : p.1 = k
    · simp [List.find?, hp]
    · simp only [List.any_cons, Bool.or_eq_true, decide_eq_true_eq] at h
      rcases h with h | h
      · exact absurd h hp
      · simpa [List.find?, hp] using ih h

theorem find_set_ne {α : Type} (m : List (String × α)) (k k2 : String) (v : α)
    (hne : k2 ≠ k) :
    ((m.map fun p => if p.1 = k then (k, v) else p).find? fun p => decide (p.1 = k2))
      = m.find? fun p => decide (p.1 = k2) := by
  induction m with
  | nil => simp
  | cons p t ih =>
    by_cases hp : p.1 = k
    · have hp2 : ¬ p.1 = k2 := by rw [hp]; exact Ne.symm hne
      simpa [List.find?, hp, hp2, Ne.symm hne] using ih
    · by_cases hp2 : p.1 = k2
      · simp [List.find?, hp, hp2, hne]
      · simpa [List.find?, hp, hp2] using ih

theorem find_append_of_none {α : Type} (p : α → Bool) (l l2 : List α)
    (h : ∀ a ∈ l, p a = false) : (l ++ l2).find? p = l2.find? p := by
  induction l with
  | nil => simp
  | cons a t ih =>
    have ha := h a (by simp)
    rw [List.cons_append]
    have hstep : ((a :: (t ++ l2)).find? p) = (t ++ l2).find? p := by
      simp [List.find?, ha]
    rw [hstep]
    exact ih fun b hb => h b (by simp [hb])

theorem find_append_single_false {α : Type} (p : α → Bool) (l : List α) (a : α)
    (h : p a = false) : (l ++ [a]).find? p = l.find? p := by
  induction l with
  | nil => simp [List.find?, h]
  | cons b t ih =>
    by_cases hb : p b = true
    · simp [List.find?, hb]
    · have hb2 : p b = false := by simpa using hb
      simpa [List.find?, hb2] using ih

theorem mapGet_mapSet_self {α : Type} (m : List (String × α)) (k : String) (v : α) :
    mapGet (mapSet m k v) k = some v := by
  unfold mapGet mapSet
  split
  case isTrue h =>
    rw [find_set_self m k v h]
    rfl
  case isFalse h =>
    have hall : ∀ p ∈ m, (fun p : String × α => decide (p.1 = k)) p = false := by
      intro p hp
      by_contra hc
      exact h (List.any_eq_true.mpr ⟨p, hp, by simpa using hc⟩)
    rw [find_append_of_none _ m _ hall]
    simp [List.find?]

theorem mapGet_mapSet_ne {α : Type} (m : List (String × α)) (k k2 : String) (v : α)
    (hne : k2 ≠ k) : mapGet (mapSet m k v) k2 = mapGet m k2 := by
  unfold mapGet mapSet
  split
  · rw [find_set_ne m k k2 v hne]
  · rw [find_append_single_false _ m (k, v) (by simpa using Ne.symm hne)]

theorem mapGet_mapDelete_self {α : Type} (m : List (String × α)) (k : String) :
    mapGet (mapDelete m k) k = none := by
  unfold mapGet mapDelete
  have hnone : ((m.filter fun p => decide (p.1 ≠ k)).find? fun p => decide (p.1 = k))
      = none := by
    rw [List.find?_eq_none]
    intro a ha
    have := List.of_mem_filter ha
    simp only [decide_eq_true_eq] at this ⊢
    exact this
  rw [hnone]
  rfl

namespace MSS

/-- A stream's latest telemetry snapshot (`streamInfo.currentStats` in
`multi-stream-stats.js`), as consumed by the decision code. -/
structure Resolution where
  width : ℚ
  height : ℚ
deriving DecidableEq

structure Stats where
  videoBitrate : ℚ
  videoFps : ℚ
  packetLossRate : ℚ
  jitter : ℚ
  qualityScore : ℚ
  resolution : Option Resolution
  qualityStatus : String
  timestamp : ℚ
deriving DecidableEq

/-- `stats.resolution?.height` as an optional value. -/
def Stats.resolutionHeight (st : Stats) : Option ℚ := st.resolution.map Resolution.height

structure Metadata where
  viewIndex : ℕ
  quality : String
  priority : String
deriving DecidableEq

structure QualityEvent where
  status : String
  score : ℚ
  timestamp : ℚ
deriving DecidableEq

/-- One entry of `this.streamStats` (per-stream state record). -/
structure StreamInfo where
  id : String
  metadata : Metadata
  currentStats : Option Stats
  lastUpdate : ℚ
  qualityHistory : List QualityEvent
  isActive : Bool
deriving DecidableEq

/-- The configuration fields the decision code reads
(`interval`, `historyDuration`, `bandwidthThresholds`; the
`qualityThresholds` table is never read by the collector). -/
structure Config where
  interval : ℚ
  historyDuration : ℚ
  bwHigh : ℚ
  bwMedium : ℚ
  bwLow : ℚ
deriving DecidableEq

def defaultConfig : Config :=
  { interval := 2000, historyDuration := 60000, bwHigh := 10, bwMedium := 5, bwLow := 2 }

structure RecMetrics where
  packetLoss : ℚ
  jitter : ℚ
  fps : ℚ
  qualityScore : ℚ
deriving DecidableEq

/-- A recommendation object produced by the collector.  Per-stream
recommendations carry `streamId` and never set `action`; global
recommendations set `action` and carry no `streamId`. -/
structure Rec where
  streamId : Option String := none
  type : String := ""
  currentQuality : Option String := none
  recommendedQuality : Option String := none
  reason : String := ""
  confidence : ℚ := 0
  timestamp : ℚ := 0
  action : Option String := none
  metrics : Option RecMetrics := none
deriving DecidableEq

/-- Cross-stream aggregate (`generateAggregatedStats` output). -/
structure Agg where
  totalStreams : ℕ
  totalBandwidth : ℚ
  averageFps : ℤ
  averagePacketLoss : ℚ
  averageJitter : ℤ
  maxWidth : ℚ
  maxHeight : ℚ
  excellentCount : ℕ
  goodCount : ℕ
  fairCount : ℕ
  poorCount : ℕ
  networkUtilization : ℕ
deriving DecidableEq

/-- Network assessment (`assessNetworkConditions` output; the
human-readable recommendation strings are not modelled). -/
structure Assessment where
  overall : String
  bandwidth : String
  stability : String
  totalBandwidthUsage : ℚ
  averageQualityScore : ℤ
  networkStressLevel : String
deriving DecidableEq

/-- Collector state: the `Map`s of `MultiStreamStatsCollector` that the
claims touch (`streamStats`, `historicalData`, `aggregatedStats`,
`lastRecommendations`) plus its configuration. -/
structure State where
  streamStats : List (String × StreamInfo)
  historicalData : List (String × List Stats)
  aggregatedStats : Option Agg
  lastRecommendations : List (String × Rec)
  config : Config
deriving DecidableEq

def emptyState : State :=
  { streamStats := [], historicalData := [], aggregatedStats := none,
    lastRecommendations := [], config := defaultConfig }

/-- `addStream(streamId, statsCollector, metadata)`: builds a fresh
`streamInfo` and writes it into the maps with `Map.set`, replacing any
existing binding.  (The `statsCollector` listener registration is
transport glue and is not modelled.) -/
def addStream (st : State) (streamId : String) (metadata : Metadata) (now : ℚ) : State :=
  let streamInfo : StreamInfo :=
    { id := streamId, metadata := metadata, currentStats := none, lastUpdate := now,
      qualityHistory := [], isActive := true }
  { st with
    streamStats := mapSet st.streamStats streamId streamInfo,
    historicalData := mapSet st.historicalData streamId [] }

/-- `removeStream(streamId)`: deletes the `streamStats` binding when
present (after flagging the record inactive, which dies with the
record); `historicalData` is not touched. -/
def removeStream (st : State) (streamId : String) : State :=
  match mapGet st.streamStats streamId with
  | some _ => { st with streamStats := mapDelete st.streamStats streamId }
  | none => st

/-- An element of the array returned by `getActiveStreams()`:
`{id: streamId, ...streamInfo}` where `currentStats` is known present. -/
structure ActiveStream where
  id : String
  metadata : Metadata
  currentStats : Stats
deriving DecidableEq

/-- `getActiveStreams()`: every map entry that is active and has stats,
in map (insertion) order.  The JS spread puts `streamInfo.id` last, so
the record's own `id` field wins over the map key. -/
def getActiveStreams (st : State) : List ActiveStream :=
  st.streamStats.filterMap fun p =>
    match p.2.currentStats with
    | some s =>
      if p.2.isActive then
        some { id := p.2.id, metadata := p.2.metadata, currentStats := s }
      else none
    | none => none

/-- `generateAggregatedStats(activeStreams)`. -/
def generateAggregatedStats (activeStreams : List ActiveStream) : Agg :=
  let totalBandwidth := (activeStreams.map fun s => orD s.currentStats.videoBitrate 0).sum
  let totalFps := (activeStreams.map fun s => orD s.currentStats.videoFps 0).sum
  let totalPacketLoss := (activeStreams.map fun s => orD s.currentStats.packetLossRate 0).sum
  let totalJitter := (activeStreams.map fun s => orD s.currentStats.jitter 0).sum
  let maxWidth := activeStreams.foldl (fun acc s =>
    match s.currentStats.resolution with
    | some r => max acc (orD r.width 0)
    | none => acc) 0
  let maxHeight := activeStreams.foldl (fun acc s =>
    match s.currentStats.resolution with
    | some r => max acc (orD r.height 0)
    | none => acc) 0
  let statusOf := fun (s : ActiveStream) =>
    if s.currentStats.qualityStatus = "" then "fair" else s.currentStats.qualityStatus
  let len := activeStreams.length
  let averageFps := if 0 < len then jsRound (totalFps / len) else 0
  let averagePacketLoss := if 0 < len then jsToFixed2 (totalPacketLoss / len) else 0
  let averageJitter := if 0 < len then jsRound (totalJitter / len) else 0
  let bandwidthMbps := totalBandwidth / 1000
  let networkUtilization : ℕ :=
    if bandwidthMbps < 2 then 30
    else if bandwidthMbps < 5 then 60
    else if bandwidthMbps < 10 then 80
    else 95
  { totalStreams := len
    totalBandwidth := totalBandwidth
    averageFps := averageFps
    averagePacketLoss := averagePacketLoss
    averageJitter := averageJitter
    maxWidth := maxWidth
    maxHeight := maxHeight
    excellentCount := activeStreams.countP fun s => decide (statusOf s = "excellent")
    goodCount := activeStreams.countP fun s => decide (statusOf s = "good")
    fairCount := activeStreams.countP fun s => decide (statusOf s = "fair")
    poorCount := activeStreams.countP fun s => decide (statusOf s = "poor")
    networkUtilization := networkUtilization }

/-- `totalBandwidth` as summed inside `assessNetworkConditions`. -/
def totalBandwidthOf (activeStreams : List ActiveStream) : ℚ :=
  (activeStreams.map fun s => orD s.currentStats.videoBitrate 0).sum

/-- The `bandwidthMbps` figure of `assessNetworkConditions`:
`(totalBandwidth / 1000).toFixed(1)` re-parsed. -/
def bandwidthMbpsOf (activeStreams : List ActiveStream) : ℚ :=
  jsToFixed1 (totalBandwidthOf activeStreams / 1000)

/-- `averageQualityScore` of `assessNetworkConditions`. -/
def avgQualityScoreOf (activeStreams : List ActiveStream) : ℤ :=
  jsRound ((activeStreams.map fun s => orD s.currentStats.qualityScore 50).sum
    / (activeStreams.length : ℚ))

/-- `problematicStreams.length`: loss above 2 or jitter above 60. -/
def problematicCountOf (activeStreams : List ActiveStream) : ℕ :=
  activeStreams.countP fun s =>
    decide (2 < s.currentStats.packetLossRate) || decide (60 < s.currentStats.jitter)

/-- The bandwidth axis of `assessNetworkConditions`. -/
def classifyBandwidth (cfg : Config) (bandwidthMbps : ℚ) : String :=
  if cfg.bwHigh < bandwidthMbps then "overloaded"
  else if cfg.bwMedium < bandwidthMbps then "moderate"
  else "sufficient"

/-- The stability axis of `assessNetworkConditions`. -/
def classifyStability (len problematicCount : ℕ) : String :=
  if (len : ℚ) * 0.5 < (problematicCount : ℚ) then "unstable"
  else if 0 < problematicCount then "moderate"
  else "stable"

/-- The stress level of `assessNetworkConditions`. -/
def classifyStress (cfg : Config) (bandwidthMbps : ℚ) (problematicCount : ℕ) : String :=
  if cfg.bwHigh < bandwidthMbps ∨ 2 < problematicCount then "high"
  else if cfg.bwMedium < bandwidthMbps ∨ 0 < problematicCount then "medium"
  else "low"

/-- The final combination step of `assessNetworkConditions`. -/
def overallOf (bandwidth stability : String) (avg : ℤ) : String :=
  if bandwidth = "overloaded" ∨ stability = "unstable" then "poor"
  else if bandwidth = "moderate" ∨ stability = "moderate" then "fair"
  else if 80 < avg then "excellent"
  else "good"

/-- `assessNetworkConditions(activeStreams)` (the human-readable
recommendation strings are not modelled). -/
def assessNetworkConditions (cfg : Config) (activeStreams : List ActiveStream) : Assessment :=
  if activeStreams.length = 0 then
    { overall := "good", bandwidth := "sufficient", stability := "stable",
      totalBandwidthUsage := 0, averageQualityScore := 0, networkStressLevel := "low" }
  else
    { overall := overallOf
        (classifyBandwidth cfg (bandwidthMbpsOf activeStreams))
        (classifyStability activeStreams.length (problematicCountOf activeStreams))
        (avgQualityScoreOf activeStreams)
      bandwidth := classifyBandwidth cfg (bandwidthMbpsOf activeStreams)
      stability := classifyStability activeStreams.length (problematicCountOf activeStreams)
      totalBandwidthUsage := bandwidthMbpsOf activeStreams
      averageQualityScore := avgQualityScoreOf activeStreams
      networkStressLevel := classifyStress cfg (bandwidthMbpsOf activeStreams)
        (problematicCountOf activeStreams) }

/-- `canUpgradeBasedOnBandwidth()`: false with no aggregate, else the
aggregate's total bandwidth in Mbps must be under the medium threshold. -/
def canUpgradeBasedOnBandwidth (st : State) : Bool :=
  match st.aggregatedStats with
  | none => false
  | some ag => decide (ag.totalBandwidth / 1000 < st.config.bwMedium)

/-- The collector's `getQualityFromResolution(height)`. -/
def getQualityFromResolution (height : Option ℚ) : String :=
  match height with
  | none => "unknown"
  | some h =>
    if h = 0 then "unknown"
    else if 1080 ≤ h then "1080p"
    else if 720 ≤ h then "720p"
    else if 480 ≤ h then "480p"
    else "low"

/-- The duplicate-suppression guard at the top of
`generateStreamRecommendation`: fires only when a cached entry is less
than 5 s old AND its `action` field is truthy.  Cached per-stream
recommendations never set `action`, so the second conjunct is the
code's own test, not an invariant. -/
def suppressCheck (st : State) (now : ℚ) (id : String) : Bool :=
  let lastRecommendation := mapGet st.lastRecommendations id
  let timeSince := now - orOptD (lastRecommendation.map (·.timestamp)) 0
  decide (timeSince < 5000) &&
    (match lastRecommendation with
     | some r => r.action.isSome
     | none => false)

/-- The quality-pick logic of `generateStreamRecommendation`:
downgrade on bad metrics, upgrade on good metrics gated by the
bandwidth-headroom check, else nothing. -/
def pickQuality (st : State) (stream : ActiveStream) : Option (String × String × ℚ) :=
  if 3 < orD stream.currentStats.packetLossRate 0 ∨ 80 < orD stream.currentStats.jitter 0
      ∨ orD stream.currentStats.videoFps 0 < 20 then
    if 720 < orOptD stream.currentStats.resolutionHeight 720 then
      some ("720p", "downgrade to preserve smoothness", 0.8)
    else if 480 < orOptD stream.currentStats.resolutionHeight 720 then
      some ("480p", "poor network, use low quality", 0.9)
    else none
  else if orD stream.currentStats.packetLossRate 0 < 1 ∧ orD stream.currentStats.jitter 0 < 30
      ∧ 28 < orD stream.currentStats.videoFps 0 ∧ 80 < orD stream.currentStats.qualityScore 50 then
    if orOptD stream.currentStats.resolutionHeight 480 < 720
        ∧ canUpgradeBasedOnBandwidth st = true then
      some ("720p", "good network, can raise quality", 0.7)
    else if orOptD stream.currentStats.resolutionHeight 480 < 1080
        ∧ canUpgradeBasedOnBandwidth st = true
        ∧ stream.metadata.priority = "high" then
      some ("1080p", "excellent network and primary stream", 0.6)
    else none
  else none

/-- `generateStreamRecommendation(stream)`: suppression guard, quality
pick, then build, cache and return the recommendation. -/
def generateStreamRecommendation (st : State) (now : ℚ) (stream : ActiveStream) :
    Option Rec × State :=
  if suppressCheck st now stream.id then (none, st)
  else
    match pickQuality st stream with
    | none => (none, st)
    | some (rq, reason, conf) =>
      let stats := stream.currentStats
      let recommendation : Rec :=
        { streamId := some stream.id
          type := "quality_switch"
          currentQuality := some (getQualityFromResolution stats.resolutionHeight)
          recommendedQuality := some rq
          reason := reason
          confidence := conf
          timestamp := now
          action := none
          metrics := some
            { packetLoss := orD stats.packetLossRate 0
              jitter := orD stats.jitter 0
              fps := orD stats.videoFps 0
              qualityScore := orD stats.qualityScore 50 } }
      (some recommendation,
       { st with lastRecommendations := mapSet st.lastRecommendations stream.id recommendation })

/-- `generateGlobalOptimization(activeStreams)` (the `totalBandwidth`
reduction is the same `videoBitrate || 0` sum as `totalBandwidthOf`). -/
def generateGlobalOptimization (cfg : Config) (now : ℚ) (activeStreams : List ActiveStream) :
    Option Rec :=
  if activeStreams.length < 2 then none
  else if cfg.bwHigh < totalBandwidthOf activeStreams / 1000 then
    some { type := "global_optimization", action := some "reduce_quality",
           reason := "total bandwidth too high", confidence := 0.9, timestamp := now }
  else if totalBandwidthOf activeStreams / 1000 < cfg.bwLow ∧ activeStreams.length ≤ 4 then
    if 0 < (activeStreams.filter fun s =>
        decide (orOptD s.currentStats.resolutionHeight 480 < 720)).length then
      some { type := "global_optimization", action := some "improve_quality",
             reason := "bandwidth headroom, can raise quality", confidence := 0.7,
             timestamp := now }
    else none
  else none

/-- The `forEach` loop of `generateQualityRecommendations`, threading
the recommendation cache through the per-stream calls. -/
def streamRecsAux (st : State) (now : ℚ) : List ActiveStream → List Rec × State
  | [] => ([], st)
  | s :: rest =>
    match generateStreamRecommendation st now s with
    | (some r, st2) => ((r :: (streamRecsAux st2 now rest).1), (streamRecsAux st2 now rest).2)
    | (none, st2) => streamRecsAux st2 now rest

/-- `generateQualityRecommendations(activeStreams)`: per-stream
recommendations followed by the optional global recommendation. -/
def generateQualityRecommendations (st : State) (now : ℚ)
    (activeStreams : List ActiveStream) : List Rec × State :=
  match generateGlobalOptimization (streamRecsAux st now activeStreams).2.config now
      activeStreams with
  | some g => ((streamRecsAux st now activeStreams).1 ++ [g],
               (streamRecsAux st now activeStreams).2)
  | none => streamRecsAux st now activeStreams

end MSS

namespace SQC

/-- `['360p', '480p', '720p', '1080p']`, lowest tier first. -/
def qualityOrder : List String := ["360p", "480p", "720p", "1080p"]

/-- The index of a quality label in `qualityOrder` (JS `indexOf`,
`none` standing for `-1`). -/
def tierIdx (q : String) : Option ℕ := qualityOrder.findIdx? fun x => decide (x = q)

/-- `upgradeQuality(currentQuality)`: one step up inside
`qualityOrder`, saturating at the top. -/
def upgradeQuality (current : String) : String :=
  match qualityOrder.findIdx? (fun x => decide (x = current)) with
  | some i => if i < qualityOrder.length - 1 then qualityOrder.getD (i + 1) current else current
  | none => current

/-- `downgradeQuality(currentQuality, levels)`: `levels` steps down
inside `qualityOrder`; `Math.max(0, ...)` is the ℕ truncation. -/
def downgradeQuality (current : String) (levels : ℕ) : String :=
  match qualityOrder.findIdx? (fun x => decide (x = current)) with
  | some i => qualityOrder.getD (i - levels) current
  | none => current

/-- `validateQuality(quality)`: a key of `config.qualityProfiles`, else `480p`. -/
def validateQuality (quality : String) : String :=
  if quality = "1080p" ∨ quality = "720p" ∨ quality = "480p" ∨ quality = "360p" then quality
  else "480p"

/-- The controller's `getQualityFromResolution(height)` (distinct from
the collector's: it defaults to `480p`/`360p`). -/
def getQualityFromResolution (height : Option ℚ) : String :=
  match height with
  | none => "480p"
  | some h =>
    if h = 0 then "480p"
    else if 1080 ≤ h then "1080p"
    else if 720 ≤ h then "720p"
    else if 480 ≤ h then "480p"
    else "360p"

/-- `getStreamTier(streamIndex)`: the primary view is always `tier0`;
otherwise the layout gives a coarse band. -/
def getStreamTier (currentLayout : String) (primaryIndex streamIndex : ℕ) : String :=
  if streamIndex = primaryIndex then "tier0"
  else if currentLayout = "single" then "tier0"
  else if currentLayout = "grid4" then "tier1"
  else if currentLayout = "grid9" then (if streamIndex < 4 then "tier1" else "tier2")
  else "tier1"

structure QualityTiers where
  tier0 : String
  tier1 : String
  tier2 : String
deriving DecidableEq

/-- `calculateQualityTiers(streamCount, networkAssessment)` (the stream
count is unused by the source); unknown network levels fall back to the
`fair` table. -/
def calculateQualityTiers (na : Option MSS.Assessment) : QualityTiers :=
  let network := match na with
    | some a => if a.overall = "" then "fair" else a.overall
    | none => "fair"
  if network = "excellent" then { tier0 := "720p", tier1 := "480p", tier2 := "360p" }
  else if network = "good" then { tier0 := "720p", tier1 := "480p", tier2 := "360p" }
  else if network = "fair" then { tier0 := "480p", tier1 := "360p", tier2 := "360p" }
  else if network = "poor" then { tier0 := "480p", tier1 := "360p", tier2 := "360p" }
  else { tier0 := "480p", tier1 := "360p", tier2 := "360p" }

/-- `qualityTiers[tier] || strategy.preferredQuality` for grid9
(preferred quality `480p`). -/
def tierLookup (tiers : QualityTiers) (tier : String) : String :=
  if tier = "tier0" then tiers.tier0
  else if tier = "tier1" then tiers.tier1
  else if tier = "tier2" then tiers.tier2
  else "480p"

structure NetAdjust where
  adjustment : ℤ
  canUpgrade : Bool
deriving DecidableEq

/-- The `networkQualityMap` table of `determineOptimalQuality`; an
unknown level falls back to the `fair` row. -/
def networkQualityMap (level : String) : NetAdjust :=
  if level = "excellent" then { adjustment := 1, canUpgrade := true }
  else if level = "good" then { adjustment := 0, canUpgrade := false }
  else if level = "fair" then { adjustment := -1, canUpgrade := false }
  else if level = "poor" then { adjustment := -2, canUpgrade := false }
  else { adjustment := -1, canUpgrade := false }

/-- `determineOptimalQuality(baseQuality, networkAssessment, options)`. -/
def determineOptimalQuality (baseQuality : String) (na : Option MSS.Assessment)
    (isPrimary : Bool) : String :=
  match na with
  | none => baseQuality
  | some a =>
    let cfg := networkQualityMap a.overall
    let target :=
      if 0 < cfg.adjustment ∧ cfg.canUpgrade = true ∧ isPrimary = true then
        upgradeQuality baseQuality
      else if cfg.adjustment < 0 then
        downgradeQuality baseQuality cfg.adjustment.natAbs
      else baseQuality
    validateQuality target

/-- A recommendation object on the controller side; individual
generators fill different subsets of the fields. -/
structure Rec where
  type : String := ""
  streamIndex : Option ℕ := none
  streamId : Option String := none
  currentQuality : Option String := none
  recommendedQuality : Option String := none
  tier : Option String := none
  reason : String := ""
  confidence : ℚ := 0
  timestamp : ℚ := 0
deriving DecidableEq

/-- The `primary_stream_quality` record pushed by `optimizeGrid4Layout`. -/
def grid4PrimaryRec (na : Option MSS.Assessment) (primary : ℕ) : Rec :=
  { type := "primary_stream_quality", streamIndex := some primary,
    recommendedQuality := some (determineOptimalQuality "1080p" na true),
    reason := "primary stream, keep quality high" }

/-- The `secondary_stream_quality` record pushed by `optimizeGrid4Layout`. -/
def grid4SecondaryRec (na : Option MSS.Assessment) (i : ℕ) : Rec :=
  { type := "secondary_stream_quality", streamIndex := some i,
    recommendedQuality := some (determineOptimalQuality "720p" na false),
    reason := "secondary stream, balance bandwidth" }

/-- `optimizeGrid4Layout(activeStreams, networkAssessment)`: the
(clamped) primary index gets the grid4 `primaryStreamQuality`
(`1080p`), the other shown indices the `preferredQuality` (`720p`);
`Math.max(0, length - 1)` is the ℕ truncation. -/
def optimizeGrid4Layout (activeStreams : List MSS.ActiveStream)
    (na : Option MSS.Assessment) (primaryIndex : ℕ) : List Rec :=
  (if 0 < activeStreams.length then
    [grid4PrimaryRec na (min primaryIndex (activeStreams.length - 1))]
   else []) ++
  ((List.range (min 4 activeStreams.length)).filter
      (fun i => decide (i ≠ min primaryIndex (activeStreams.length - 1)))).map
    (grid4SecondaryRec na)

/-- The `multi_stream_optimization` record pushed by `optimizeGrid9Layout`:
`qualityTiers[tier] || preferredQuality` via `tierLookup`. -/
def grid9Rec (currentLayout : String) (primaryIndex : ℕ) (na : Option MSS.Assessment)
    (i : ℕ) : Rec :=
  { type := "multi_stream_optimization", streamIndex := some i,
    recommendedQuality := some (tierLookup (calculateQualityTiers na)
      (getStreamTier currentLayout primaryIndex i)),
    tier := some (getStreamTier currentLayout primaryIndex i),
    reason := "grid9 band quality" }

/-- `optimizeGrid9Layout(activeStreams, networkAssessment)`: every
shown index gets the quality of its band from `calculateQualityTiers`. -/
def optimizeGrid9Layout (currentLayout : String) (primaryIndex : ℕ)
    (activeStreams : List MSS.ActiveStream) (na : Option MSS.Assessment) : List Rec :=
  (List.range (min 9 activeStreams.length)).map (grid9Rec currentLayout primaryIndex na)

/-- One stream counts as a problem stream in
`analyzeCurrentPerformance` when
`packetLossRate > 2 || jitter > 80 || videoFps < 20`. -/
def isProblemStream (st : MSS.Stats) : Bool :=
  decide (2 < st.packetLossRate) || decide (80 < st.jitter) || decide (st.videoFps < 20)

/-- `analyzeCurrentPerformance` output: the fields the synthesis reads
(the human-readable issue strings and the embedded per-stream
suggestions feed nothing downstream). -/
structure PerfAnalysis where
  overall : String
  problemStreams : ℕ
  averageQualityScore : ℤ
deriving DecidableEq

/-- The overall classifier at the end of `analyzeCurrentPerformance`. -/
def perfOverall (problemStreams : ℕ) (avg : ℤ) : String :=
  if problemStreams = 0 ∧ 80 < avg then "excellent"
  else if problemStreams ≤ 1 ∧ 60 < avg then "good"
  else if problemStreams ≤ 2 ∧ 40 < avg then "fair"
  else "poor"

/-- `analyzeCurrentPerformance(activeStreams)`; elements of
`getActiveStreams()` always carry stats, so the per-element null guard
of the source is vacuous here. -/
def analyzeCurrentPerformance (activeStreams : List MSS.ActiveStream) : PerfAnalysis :=
  if activeStreams.length = 0 then
    { overall := "good", problemStreams := 0, averageQualityScore := 0 }
  else
    let totalQualityScore := (activeStreams.map fun s => orD s.currentStats.qualityScore 50).sum
    let problemStreams := activeStreams.countP fun s => isProblemStream s.currentStats
    let avg := jsRound (totalQualityScore / (activeStreams.length : ℚ))
    { overall := perfOverall problemStreams avg, problemStreams := problemStreams,
      averageQualityScore := avg }

/-- `networkAssessment?.overall || 'fair'`. -/
def networkLevelOf (na : Option MSS.Assessment) : String :=
  match na with
  | some a => if a.overall = "" then "fair" else a.overall
  | none => "fair"

/-- `determineOptimizationStrategy(performanceAnalysis, networkAssessment)`. -/
def determineOptimizationStrategy (pa : PerfAnalysis) (na : Option MSS.Assessment) : String :=
  if networkLevelOf na = "poor" ∨ 2 < pa.problemStreams then "emergency_downgrade"
  else if networkLevelOf na = "fair" ∨ pa.overall = "fair" then "conservative_optimization"
  else if networkLevelOf na = "excellent" ∧ pa.overall = "excellent" then "quality_enhancement"
  else "balanced_optimization"

/-- `getHistoricalSuccessRate()`: 0.5 with no reported switches. -/
def getHistoricalSuccessRate (successfulSwitches failedSwitches : ℕ) : ℚ :=
  let totalSwitches := successfulSwitches + failedSwitches
  if totalSwitches = 0 then 0.5
  else (successfulSwitches : ℚ) / (totalSwitches : ℚ)

/-- `calculateRecommendationConfidence(performanceAnalysis, networkAssessment)`;
the performance analysis argument is always an object (truthy) at the
call site, so the data-completeness bonus tests the assessment only. -/
def calculateRecommendationConfidence (pa : PerfAnalysis) (na : Option MSS.Assessment)
    (successfulSwitches failedSwitches : ℕ) : ℚ :=
  let c1 : ℚ := 0.5
  let c2 := if na.isSome then c1 + 0.2 else c1
  let c3 := if 0 < pa.problemStreams then c2 + 0.2 else c2
  let successRate := getHistoricalSuccessRate successfulSwitches failedSwitches
  let c4 := c3 + (successRate - 0.5) * 0.2
  min 1 (max 0 c4)

/-- The controller's per-stream `generateStreamRecommendation(stream, index)`:
cooldown guard, then one of three downgrade triggers. -/
def generateStreamRecommendation (lastSwitchTimes : List (String × ℚ)) (now : ℚ)
    (stream : MSS.ActiveStream) (index : ℕ) : Option Rec :=
  let stats := stream.currentStats
  let lastSwitchTime := orOptD (mapGet lastSwitchTimes stream.id) 0
  if now - lastSwitchTime < 10000 then none
  else
    let pick : Option (String × ℚ) :=
      if 3 < stats.packetLossRate then
        some ("high packet loss, lower the quality", 0.9)
      else if 100 < stats.jitter then
        some ("high jitter, lower the quality", 0.8)
      else if stats.videoFps < 15 then
        some ("low frame rate, lower the quality", 0.85)
      else none
    match pick with
    | some (reason, conf) =>
      some { type := "", streamIndex := some index, streamId := some stream.id,
             currentQuality := some (getQualityFromResolution stats.resolutionHeight),
             recommendedQuality :=
               some (downgradeQuality (getQualityFromResolution stats.resolutionHeight) 1),
             reason := reason, confidence := conf, timestamp := now }
    | none => none

/-- The three recommendation buckets of a batch recommendation. -/
structure Buckets where
  immediate : List Rec
  gradual : List Rec
  fallback : List Rec
deriving DecidableEq

/-- The per-stream body of `generateEmergencyRecommendations`: current
quality read from the observed resolution, target two levels lower. -/
def emergencyRec (index : ℕ) (stream : MSS.ActiveStream) : Rec :=
  let currentQuality := getQualityFromResolution stream.currentStats.resolutionHeight
  let emergencyQuality := downgradeQuality currentQuality 2
  { type := "emergency_quality_reduction", streamIndex := some index,
    currentQuality := some currentQuality, recommendedQuality := some emergencyQuality,
    reason := "network emergency, downgrade to keep the connection", confidence := 0.95 }

/-- `generateEmergencyRecommendations`: one immediate entry per active
stream, in order. -/
def generateEmergencyRecommendations (activeStreams : List MSS.ActiveStream) : List Rec :=
  activeStreams.enum.map fun p => emergencyRec p.1 p.2

/-- `generateConservativeRecommendations`: gradual one-level downgrades
for streams with loss above 2 or jitter above 60. -/
def generateConservativeRecommendations (activeStreams : List MSS.ActiveStream) : List Rec :=
  activeStreams.enum.filterMap fun p =>
    let stats := p.2.currentStats
    if 2 < stats.packetLossRate ∨ 60 < stats.jitter then
      let currentQuality := getQualityFromResolution stats.resolutionHeight
      some { type := "conservative_optimization", streamIndex := some p.1,
             currentQuality := some currentQuality,
             recommendedQuality := some (downgradeQuality currentQuality 1),
             reason := "average network, conservative downgrade", confidence := 0.8 }
    else none

/-- `generateEnhancementRecommendations`: gradual one-level upgrades
for streams with excellent metrics, skipped when already at the top. -/
def generateEnhancementRecommendations (activeStreams : List MSS.ActiveStream) : List Rec :=
  activeStreams.enum.filterMap fun p =>
    let stats := p.2.currentStats
    if stats.packetLossRate < 1 ∧ stats.jitter < 30 ∧ 28 < stats.videoFps then
      let currentQuality := getQualityFromResolution stats.resolutionHeight
      let enhancedQuality := upgradeQuality currentQuality
      if enhancedQuality ≠ currentQuality then
        some { type := "quality_enhancement", streamIndex := some p.1,
               currentQuality := some currentQuality,
               recommendedQuality := some enhancedQuality,
               reason := "excellent network, raise quality", confidence := 0.7 }
      else none
    else none

/-- `determineRecommendationType(recommendation)`: bucket by confidence. -/
def determineRecommendationType (r : Rec) : String :=
  if 0.8 < r.confidence then "immediate"
  else if 0.6 < r.confidence then "gradual"
  else "fallback"

/-- `generateBalancedRecommendations`: per-stream recommendations
bucketed by their own confidence, relabelled `balanced_optimization`. -/
def generateBalancedRecommendations (lastSwitchTimes : List (String × ℚ)) (now : ℚ)
    (activeStreams : List MSS.ActiveStream) : Buckets :=
  activeStreams.enum.foldl (fun b p =>
    match generateStreamRecommendation lastSwitchTimes now p.2 p.1 with
    | some r =>
      let relabelled := { r with type := "balanced_optimization" }
      let bucket := determineRecommendationType r
      if bucket = "immediate" then { b with immediate := b.immediate ++ [relabelled] }
      else if bucket = "gradual" then { b with gradual := b.gradual ++ [relabelled] }
      else { b with fallback := b.fallback ++ [relabelled] }
    | none => b)
    { immediate := [], gradual := [], fallback := [] }

/-- `populateRecommendations(batchRecommendation, activeStreams, layoutOptimizations)`:
dispatch on the strategy type, then append the layout optimizations to
the gradual bucket. -/
def populateRecommendations (strategyType : String) (activeStreams : List MSS.ActiveStream)
    (layoutOptimizations : List Rec) (lastSwitchTimes : List (String × ℚ)) (now : ℚ) :
    Buckets :=
  let base : Buckets :=
    if strategyType = "emergency_downgrade" then
      { immediate := generateEmergencyRecommendations activeStreams,
        gradual := [], fallback := [] }
    else if strategyType = "conservative_optimization" then
      { immediate := [], gradual := generateConservativeRecommendations activeStreams,
        fallback := [] }
    else if strategyType = "quality_enhancement" then
      { immediate := [], gradual := generateEnhancementRecommendations activeStreams,
        fallback := [] }
    else generateBalancedRecommendations lastSwitchTimes now activeStreams
  { base with gradual := base.gradual ++ layoutOptimizations }

structure PerformanceMetrics where
  successfulSwitches : ℕ
  failedSwitches : ℕ
  userOverrides : ℕ
deriving DecidableEq

/-- Controller state: layout, primary view, per-stream switch times
and outcome counters. -/
structure CtlState where
  currentLayout : String
  primaryIndex : ℕ
  lastSwitchTimes : List (String × ℚ)
  performanceMetrics : PerformanceMetrics
deriving DecidableEq

/-- `reportSwitchResult(streamId, success, details)`: bump the matching
counter, then unconditionally stamp `lastSwitchTimes[streamId] = Date.now()`. -/
def reportSwitchResult (st : CtlState) (streamId : String) (success : Bool) (now : ℚ) :
    CtlState :=
  let pm := st.performanceMetrics
  let pm2 :=
    if success then { pm with successfulSwitches := pm.successfulSwitches + 1 }
    else { pm with failedSwitches := pm.failedSwitches + 1 }
  { st with performanceMetrics := pm2,
            lastSwitchTimes := mapSet st.lastSwitchTimes streamId now }

end SQC

/-! ### Shared helper lemmas -/

theorem getQualityFromResolution_cases (h : Option ℚ) :
    SQC.getQualityFromResolution h = "360p" ∨ SQC.getQualityFromResolution h = "480p" ∨
    SQC.getQualityFromResolution h = "720p" ∨ SQC.getQualityFromResolution h = "1080p" := by
  match h with
  | none => simp [SQC.getQualityFromResolution]
  | some x =>
    simp only [SQC.getQualityFromResolution]
    split_ifs <;> simp

theorem tier_drop_two (q : String)
    (hq : q = "360p" ∨ q = "480p" ∨ q = "720p" ∨ q = "1080p") :
    ∃ ci, SQC.tierIdx q = some ci ∧
      SQC.tierIdx (SQC.downgradeQuality q 2) = some (ci - 2) := by
  rcases hq with rfl | rfl | rfl | rfl
  · exact ⟨0, by decide, by decide⟩
  · exact ⟨1, by decide, by decide⟩
  · exact ⟨2, by decide, by decide⟩
  · exact ⟨3, by decide, by decide⟩

/-! ### C1: emergency downgrade forces immediate two-tier drops -/

/-- C1: whenever the synthesized strategy comes out as
`emergency_downgrade`, the populated bundle gives every active stream a
recommendation in the `immediate` bucket whose recommended tier index is
exactly its current tier index minus two, truncated at the lowest tier,
for every stream regardless of its individual confidence. -/
theorem emergency_strategy_two_tier_immediate
    (activeStreams : List MSS.ActiveStream) (na : Option MSS.Assessment)
    (layoutOptimizations : List SQC.Rec) (lastSwitchTimes : List (String × ℚ)) (now : ℚ)
    (hstrat : SQC.determineOptimizationStrategy (SQC.analyzeCurrentPerformance activeStreams) na
      = "emergency_downgrade") :
    (SQC.populateRecommendations
        (SQC.determineOptimizationStrategy (SQC.analyzeCurrentPerformance activeStreams) na)
        activeStreams layoutOptimizations lastSwitchTimes now).immediate.length
      = activeStreams.length ∧
    ∀ i, i < activeStreams.length →
      ∃ r, (SQC.populateRecommendations
            (SQC.determineOptimizationStrategy (SQC.analyzeCurrentPerformance activeStreams) na)
            activeStreams layoutOptimizations lastSwitchTimes now).immediate[i]? = some r ∧
        r.streamIndex = some i ∧
        ∃ cq ci rq, r.currentQuality = some cq ∧ SQC.tierIdx cq = some ci ∧
          r.recommendedQuality = some rq ∧ SQC.tierIdx rq = some (ci - 2) := by
  rw [hstrat]
  unfold SQC.populateRecommendations
  rw [if_pos rfl]
  constructor
  · simp [SQC.generateEmergencyRecommendations, List.enum_length]
  · intro i hi
    have hget : activeStreams[i]? = some activeStreams[i] := List.getElem?_eq_getElem hi
    refine ⟨SQC.emergencyRec i activeStreams[i], ?_, rfl, ?_⟩
    · simp [SQC.generateEmergencyRecommendations, List.getElem?_map, List.getElem?_enum, hget]
    · obtain ⟨ci, hci, hdrop⟩ := tier_drop_two
        (SQC.getQualityFromResolution activeStreams[i].currentStats.resolutionHeight)
        (getQualityFromResolution_cases _)
      exact ⟨_, ci, _, rfl, hci, rfl, hdrop⟩

def c1Stats : MSS.Stats :=
  { videoBitrate := 800
    videoFps := 12
    packetLossRate := 6
    jitter := 120
    qualityScore := 30
    resolution := some { width := 1280, height := 720 }
    qualityStatus := "poor"
    timestamp := 0 }

def c1Stream (id : String) : MSS.ActiveStream :=
  { id := id
    metadata := { viewIndex := 0, quality := "auto", priority := "normal" }
    currentStats := c1Stats }

def c1Streams : List MSS.ActiveStream := [c1Stream "a", c1Stream "b", c1Stream "c"]

theorem emergency_strategy_two_tier_immediate_witness :
    SQC.determineOptimizationStrategy (SQC.analyzeCurrentPerformance c1Streams) none
      = "emergency_downgrade" ∧
    ((SQC.populateRecommendations
        (SQC.determineOptimizationStrategy (SQC.analyzeCurrentPerformance c1Streams) none)
        c1Streams [] [] 0).immediate.length = c1Streams.length ∧
     ∀ i, i < c1Streams.length →
      ∃ r, (SQC.populateRecommendations
            (SQC.determineOptimizationStrategy (SQC.analyzeCurrentPerformance c1Streams) none)
            c1Streams [] [] 0).immediate[i]? = some r ∧
        r.streamIndex = some i ∧
        ∃ cq ci rq, r.currentQuality = some cq ∧ SQC.tierIdx cq = some ci ∧
          r.recommendedQuality = some rq ∧ SQC.tierIdx rq = some (ci - 2)) :=
  ⟨by with_unfolding_all decide,
   emergency_strategy_two_tier_immediate c1Streams none [] [] 0
     (by with_unfolding_all decide)⟩

/-! ### C2: strategy selection -/

/-- The claim's notion of a problem stream — packet loss above 3 %,
jitter above 80 ms or fps below 20 (formalised from the claim text;
the source counts with a loss threshold of 2, see `SQC.isProblemStream`). -/
def claimProblemStream (s : MSS.ActiveStream) : Bool :=
  decide (3 < s.currentStats.packetLossRate) || decide (80 < s.currentStats.jitter) ||
    decide (s.currentStats.videoFps < 20)

def c2Stats : MSS.Stats :=
  { videoBitrate := 500
    videoFps := 30
    packetLossRate := 2.5
    jitter := 0
    qualityScore := 50
    resolution := some { width := 854, height := 480 }
    qualityStatus := "fair"
    timestamp := 0 }

def c2Stream (id : String) : MSS.ActiveStream :=
  { id := id
    metadata := { viewIndex := 0, quality := "auto", priority := "normal" }
    currentStats := c2Stats }

def c2Streams : List MSS.ActiveStream := [c2Stream "a", c2Stream "b", c2Stream "c"]

def c2Assessment : MSS.Assessment :=
  { overall := "good", bandwidth := "sufficient", stability := "stable",
    totalBandwidthUsage := 1, averageQualityScore := 50, networkStressLevel := "low" }

/-- C2 counterexample: three streams with 2.5 % packet loss (above the
source's threshold 2, below the claim's threshold 3), perfect jitter and
fps, under a `good` network assessment.  The code synthesizes
`emergency_downgrade`, while the claim's condition — overall `poor` or
more than two streams with loss above 3 % — is false. -/
theorem strategy_loss_threshold_counterexample :
    SQC.determineOptimizationStrategy (SQC.analyzeCurrentPerformance c2Streams)
      (some c2Assessment) = "emergency_downgrade" ∧
    c2Assessment.overall ≠ "poor" ∧
    c2Streams.countP claimProblemStream ≤ 2 := by
  with_unfolding_all decide

theorem analyze_spec (l : List MSS.ActiveStream) :
    SQC.analyzeCurrentPerformance l =
      if l.length = 0 then
        { overall := "good", problemStreams := 0, averageQualityScore := 0 }
      else
        { overall := SQC.perfOverall (l.countP fun s => SQC.isProblemStream s.currentStats)
            (jsRound ((l.map fun s => orD s.currentStats.qualityScore 50).sum / (l.length : ℚ)))
          problemStreams := l.countP fun s => SQC.isProblemStream s.currentStats
          averageQualityScore :=
            jsRound ((l.map fun s => orD s.currentStats.qualityScore 50).sum / (l.length : ℚ)) } :=
  rfl

theorem analyze_problemStreams (l : List MSS.ActiveStream) :
    (SQC.analyzeCurrentPerformance l).problemStreams
      = l.countP fun s => SQC.isProblemStream s.currentStats := by
  rw [analyze_spec]
  split
  · next h => simp [List.length_eq_zero.mp h]
  · rfl

theorem perfOverall_excellent (p : ℕ) (avg : ℤ)
    (h : SQC.perfOverall p avg = "excellent") : p = 0 := by
  unfold SQC.perfOverall at h
  split_ifs at h with h1 h2 h3
  · exact h1.1
  · exact absurd h (by decide)
  · exact absurd h (by decide)
  · exact absurd h (by decide)

theorem analyze_excellent_no_problems (l : List MSS.ActiveStream)
    (h : (SQC.analyzeCurrentPerformance l).overall = "excellent") :
    (l.countP fun s => SQC.isProblemStream s.currentStats) = 0 := by
  rw [analyze_spec] at h
  split at h
  · exact absurd h (by decide)
  · exact perfOverall_excellent _ _ h

/-- C2 (amended): the strategy label is `emergency_downgrade` exactly
when the network level is `poor` or more than two problem streams exist,
where a problem stream has packet loss above 2 % (the source threshold;
the claim said 3 %) or jitter above 80 ms or fps below 20; otherwise
`conservative_optimization` when network or performance is `fair`,
`quality_enhancement` when both are `excellent` (which forces zero
problem streams), and `balanced_optimization` in every remaining case. -/
theorem strategy_selection_amended
    (activeStreams : List MSS.ActiveStream) (na : Option MSS.Assessment) :
    (SQC.determineOptimizationStrategy (SQC.analyzeCurrentPerformance activeStreams) na
        = "emergency_downgrade"
      ↔ (SQC.networkLevelOf na = "poor" ∨
          2 < activeStreams.countP fun s => SQC.isProblemStream s.currentStats)) ∧
    (SQC.determineOptimizationStrategy (SQC.analyzeCurrentPerformance activeStreams) na
        = "conservative_optimization"
      ↔ (¬(SQC.networkLevelOf na = "poor" ∨
            2 < activeStreams.countP fun s => SQC.isProblemStream s.currentStats) ∧
         (SQC.networkLevelOf na = "fair" ∨
          (SQC.analyzeCurrentPerformance activeStreams).overall = "fair"))) ∧
    (SQC.determineOptimizationStrategy (SQC.analyzeCurrentPerformance activeStreams) na
        = "quality_enhancement"
      ↔ (¬(SQC.networkLevelOf na = "poor" ∨
            2 < activeStreams.countP fun s => SQC.isProblemStream s.currentStats) ∧
         ¬(SQC.networkLevelOf na = "fair" ∨
           (SQC.analyzeCurrentPerformance activeStreams).overall = "fair") ∧
         SQC.networkLevelOf na = "excellent" ∧
         (SQC.analyzeCurrentPerformance activeStreams).overall = "excellent" ∧
         (activeStreams.countP fun s => SQC.isProblemStream s.currentStats) = 0)) ∧
    (SQC.determineOptimizationStrategy (SQC.analyzeCurrentPerformance activeStreams) na
        = "balanced_optimization"
      ↔ (¬(SQC.networkLevelOf na = "poor" ∨
            2 < activeStreams.countP fun s => SQC.isProblemStream s.currentStats) ∧
         ¬(SQC.networkLevelOf na = "fair" ∨
           (SQC.analyzeCurrentPerformance activeStreams).overall = "fair") ∧
         ¬(SQC.networkLevelOf na = "excellent" ∧
           (SQC.analyzeCurrentPerformance activeStreams).overall = "excellent"))) := by
  have hp := analyze_problemStreams activeStreams
  unfold SQC.determineOptimizationStrategy
  rw [hp]
  split_ifs with h1 h2 h3
  · exact ⟨iff_of_true rfl h1,
      iff_of_false (by decide) fun hc => hc.1 h1,
      iff_of_false (by decide) fun hc => hc.1 h1,
      iff_of_false (by decide) fun hc => hc.1 h1⟩
  · exact ⟨iff_of_false (by decide) h1,
      iff_of_true rfl ⟨h1, h2⟩,
      iff_of_false (by decide) fun hc => hc.2.1 h2,
      iff_of_false (by decide) fun hc => hc.2.1 h2⟩
  · exact ⟨iff_of_false (by decide) h1,
      iff_of_false (by decide) fun hc => h2 hc.2,
      iff_of_true rfl ⟨h1, h2, h3.1, h3.2, analyze_excellent_no_problems activeStreams h3.2⟩,
      iff_of_false (by decide) fun hc => hc.2.2 h3⟩
  · exact ⟨iff_of_false (by decide) h1,
      iff_of_false (by decide) fun hc => h2 hc.2,
      iff_of_false (by decide) fun hc => h3 ⟨hc.2.2.1, hc.2.2.2.1⟩,
      iff_of_true rfl ⟨h1, h2, h3⟩⟩

/-! ### C3: duplicate-recommendation suppression (code bug) -/

def c3Stats : MSS.Stats :=
  { videoBitrate := 2000
    videoFps := 25
    packetLossRate := 5
    jitter := 10
    qualityScore := 40
    resolution := some { width := 1920, height := 1080 }
    qualityStatus := "poor"
    timestamp := 0 }

def c3Stream : MSS.ActiveStream :=
  { id := "cam1"
    metadata := { viewIndex := 0, quality := "auto", priority := "normal" }
    currentStats := c3Stats }

/-- C3 (code bug): the suppression guard of the collector's
`generateStreamRecommendation` tests `lastRecommendation?.action`, a
field never set on cached per-stream recommendations, so it never
fires: the identical `streamId = cam1`, `recommendedQuality = 720p`
recommendation is produced again 1000 ms after the first, with no
outcome reported in between, instead of being suppressed. -/
theorem duplicate_recommendation_not_suppressed :
    ((MSS.generateStreamRecommendation MSS.emptyState 0 c3Stream).1.map
        fun r => (r.streamId, r.recommendedQuality, r.action))
      = some (some "cam1", some "720p", none) ∧
    ((MSS.generateStreamRecommendation
        (MSS.generateStreamRecommendation MSS.emptyState 0 c3Stream).2 1000 c3Stream).1.map
        fun r => (r.streamId, r.recommendedQuality))
      = some (some "cam1", some "720p") := by
  with_unfolding_all decide

/-! ### C4: outcome reporting and the cooldown timestamp -/

def c4State : SQC.CtlState :=
  { currentLayout := "single"
    primaryIndex := 0
    lastSwitchTimes := [("view_0", 100)]
    performanceMetrics := { successfulSwitches := 0, failedSwitches := 0, userOverrides := 0 } }

/-- C4 counterexample: reporting a FAILED switch at time 5000 for a
stream whose last-switch stamp was 100 overwrites the stamp with 5000
(restarting the cooldown), contrary to the claim that a failed outcome
leaves the timestamp unchanged. -/
theorem failed_switch_restamps_cooldown :
    mapGet c4State.lastSwitchTimes "view_0" = some 100 ∧
    mapGet (SQC.reportSwitchResult c4State "view_0" false 5000).lastSwitchTimes "view_0"
      = some 5000 ∧
    (SQC.reportSwitchResult c4State "view_0" false 5000).performanceMetrics.failedSwitches
      = 1 := by
  decide

/-- C4 (amended): `reportSwitchResult` stamps the stream's last-switch
time to the current time on BOTH success and failure (so a failed
switch does restart the cooldown); success increments the success
tally, failure increments the failure tally used to dampen the
confidence of later recommendations. -/
theorem report_switch_result_spec (st : SQC.CtlState) (streamId : String)
    (success : Bool) (now : ℚ) :
    mapGet (SQC.reportSwitchResult st streamId success now).lastSwitchTimes streamId
      = some now ∧
    (SQC.reportSwitchResult st streamId success now).performanceMetrics.successfulSwitches
      = (if success then st.performanceMetrics.successfulSwitches + 1
         else st.performanceMetrics.successfulSwitches) ∧
    (SQC.reportSwitchResult st streamId success now).performanceMetrics.failedSwitches
      = (if success then st.performanceMetrics.failedSwitches
         else st.performanceMetrics.failedSwitches + 1) := by
  refine ⟨mapGet_mapSet_self _ _ _, ?_, ?_⟩
  · unfold SQC.reportSwitchResult
    cases success <;> simp
  · unfold SQC.reportSwitchResult
    cases success <;> simp

/-! ### C5: bandwidth headroom blocks upgrades -/

/-- C5: for a stream whose telemetry is good (loss below 1, jitter
below 30, fps above 28, quality score above 80), no recommendation —
in particular no upgrade — is emitted while the aggregated total
bandwidth in Mbps is at or above the configured medium threshold. -/
theorem no_upgrade_under_bandwidth_pressure
    (st : MSS.State) (now : ℚ) (stream : MSS.ActiveStream) (ag : MSS.Agg)
    (hag : st.aggregatedStats = some ag)
    (hbw : st.config.bwMedium ≤ ag.totalBandwidth / 1000)
    (hloss : stream.currentStats.packetLossRate < 1)
    (hjit : stream.currentStats.jitter < 30)
    (hfps : 28 < stream.currentStats.videoFps)
    (_hscore : 80 < stream.currentStats.qualityScore) :
    (MSS.generateStreamRecommendation st now stream).1 = none := by
  have hcan : MSS.canUpgradeBasedOnBandwidth st = false := by
    unfold MSS.canUpgradeBasedOnBandwidth
    rw [hag]
    simp only [decide_eq_false_iff_not, not_lt]
    exact hbw
  have hLoss0 : orD stream.currentStats.packetLossRate 0 = stream.currentStats.packetLossRate := by
    unfold orD
    split <;> simp_all
  have hJit0 : orD stream.currentStats.jitter 0 = stream.currentStats.jitter := by
    unfold orD
    split <;> simp_all
  have hFps0 : orD stream.currentStats.videoFps 0 = stream.currentStats.videoFps := by
    unfold orD
    split <;> simp_all
  have hpick : MSS.pickQuality st stream = none := by
    unfold MSS.pickQuality
    rw [hLoss0, hJit0, hFps0, hcan]
    rw [if_neg (by push_neg; exact ⟨by linarith, by linarith, by linarith⟩)]
    split_ifs with hgood h1 h2
    · exact absurd h1.2 (by simp)
    · exact absurd h2.2.1 (by simp)
    · rfl
    · rfl
  unfold MSS.generateStreamRecommendation
  rw [hpick]
  split <;> rfl

def c5Agg : MSS.Agg :=
  { totalStreams := 2
    totalBandwidth := 6000
    averageFps := 30
    averagePacketLoss := 0
    averageJitter := 5
    maxWidth := 854
    maxHeight := 480
    excellentCount := 2
    goodCount := 0
    fairCount := 0
    poorCount := 0
    networkUtilization := 80 }

def c5State : MSS.State :=
  { streamStats := []
    historicalData := []
    aggregatedStats := some c5Agg
    lastRecommendations := []
    config := MSS.defaultConfig }

def c5Stream : MSS.ActiveStream :=
  { id := "good1"
    metadata := { viewIndex := 0, quality := "auto", priority := "high" }
    currentStats :=
      { videoBitrate := 1200
        videoFps := 30
        packetLossRate := 0.2
        jitter := 10
        qualityScore := 90
        resolution := some { width := 854, height := 480 }
        qualityStatus := "excellent"
        timestamp := 0 } }

theorem no_upgrade_under_bandwidth_pressure_witness :
    c5State.aggregatedStats = some c5Agg ∧
    c5State.config.bwMedium ≤ c5Agg.totalBandwidth / 1000 ∧
    c5Stream.currentStats.packetLossRate < 1 ∧
    c5Stream.currentStats.jitter < 30 ∧
    28 < c5Stream.currentStats.videoFps ∧
    80 < c5Stream.currentStats.qualityScore ∧
    (MSS.generateStreamRecommendation c5State 0 c5Stream).1 = none :=
  ⟨rfl, by with_unfolding_all decide, by with_unfolding_all decide,
   by with_unfolding_all decide, by with_unfolding_all decide, by with_unfolding_all decide,
   no_upgrade_under_bandwidth_pressure c5State 0 c5Stream c5Agg rfl
     (by with_unfolding_all decide) (by with_unfolding_all decide)
     (by with_unfolding_all decide) (by with_unfolding_all decide)
     (by with_unfolding_all decide)⟩

/-! ### C6: worst-case precedence in the network assessment -/

theorem classifyBandwidth_cases (cfg : MSS.Config) (q : ℚ) :
    MSS.classifyBandwidth cfg q = "overloaded" ∨ MSS.classifyBandwidth cfg q = "moderate" ∨
    MSS.classifyBandwidth cfg q = "sufficient" := by
  unfold MSS.classifyBandwidth
  split_ifs <;> simp

theorem classifyStability_cases (len c : ℕ) :
    MSS.classifyStability len c = "unstable" ∨ MSS.classifyStability len c = "moderate" ∨
    MSS.classifyStability len c = "stable" := by
  unfold MSS.classifyStability
  split_ifs <;> simp

/-- C6: the network assessment combines its two axes by worst-case
precedence: `overloaded` or `unstable` gives overall `poor`; otherwise
`moderate` on either axis gives `fair`; otherwise (the axes are then
necessarily `sufficient` and `stable`) the overall level is
`excellent` when the average quality score exceeds 80 and `good`
otherwise. -/
theorem assessment_worst_case_precedence (cfg : MSS.Config)
    (activeStreams : List MSS.ActiveStream) :
    (MSS.assessNetworkConditions cfg activeStreams).overall
      = (if (MSS.assessNetworkConditions cfg activeStreams).bandwidth = "overloaded"
            ∨ (MSS.assessNetworkConditions cfg activeStreams).stability = "unstable" then "poor"
         else if (MSS.assessNetworkConditions cfg activeStreams).bandwidth = "moderate"
            ∨ (MSS.assessNetworkConditions cfg activeStreams).stability = "moderate" then "fair"
         else if 80 < (MSS.assessNetworkConditions cfg activeStreams).averageQualityScore
           then "excellent" else "good") ∧
    ((MSS.assessNetworkConditions cfg activeStreams).bandwidth = "overloaded" ∨
     (MSS.assessNetworkConditions cfg activeStreams).bandwidth = "moderate" ∨
     (MSS.assessNetworkConditions cfg activeStreams).bandwidth = "sufficient") ∧
    ((MSS.assessNetworkConditions cfg activeStreams).stability = "unstable" ∨
     (MSS.assessNetworkConditions cfg activeStreams).stability = "moderate" ∨
     (MSS.assessNetworkConditions cfg activeStreams).stability = "stable") := by
  unfold MSS.assessNetworkConditions
  split
  · exact ⟨by decide, by decide, by decide⟩
  · exact ⟨rfl, classifyBandwidth_cases cfg _, classifyStability_cases _ _⟩

/-! ### C7: bundle confidence formula and bounds -/

/-- C7: the bundle strategy confidence equals base 0.5, plus 0.2 when
the network assessment is present alongside the (always present)
performance analysis, plus 0.2 when at least one problem stream
exists, plus a historical-success adjustment of (successRate - 0.5)
scaled by 0.2, where the success rate is successful switches over
total reported switches (0.5 with no history), clamped into [0, 1];
and the result always lies in [0, 1]. -/
theorem bundle_confidence_formula (pa : SQC.PerfAnalysis) (na : Option MSS.Assessment)
    (succ failed : ℕ) :
    SQC.calculateRecommendationConfidence pa na succ failed
      = min 1 (max 0 ((0.5 : ℚ) + (if na.isSome then 0.2 else 0)
          + (if 0 < pa.problemStreams then 0.2 else 0)
          + (SQC.getHistoricalSuccessRate succ failed - 0.5) * 0.2)) ∧
    SQC.getHistoricalSuccessRate succ failed
      = (if succ + failed = 0 then 0.5 else (succ : ℚ) / (((succ + failed : ℕ)) : ℚ)) ∧
    0 ≤ SQC.calculateRecommendationConfidence pa na succ failed ∧
    SQC.calculateRecommendationConfidence pa na succ failed ≤ 1 := by
  refine ⟨?_, rfl, ?_, ?_⟩
  · simp only [SQC.calculateRecommendationConfidence]
    split_ifs <;> ring_nf
  · exact le_min (by norm_num) (le_max_left _ _)
  · exact min_le_left _ _

/-! ### C8: primary stream promoted to the highest band -/

/-- Position of a quality label in `SQC.qualityOrder` (0 = lowest). -/
def qualityRank (q : Option String) : ℕ :=
  match q with
  | some s => (SQC.qualityOrder.findIdx? fun x => decide (x = s)).getD 0
  | none => 0

theorem grid4_secondary_le_primary (na : Option MSS.Assessment) :
    qualityRank (some (SQC.determineOptimalQuality "720p" na false))
      ≤ qualityRank (some (SQC.determineOptimalQuality "1080p" na true)) := by
  match na with
  | none => decide
  | some a =>
    simp only [SQC.determineOptimalQuality, SQC.networkQualityMap]
    split_ifs <;> first | decide | (exfalso; simp_all)

theorem tierLookup_le_tier0 (na : Option MSS.Assessment) (t : String) :
    qualityRank (some (SQC.tierLookup (SQC.calculateQualityTiers na) t))
      ≤ qualityRank (some (SQC.calculateQualityTiers na).tier0) := by
  have hcases : SQC.calculateQualityTiers na = { tier0 := "720p", tier1 := "480p", tier2 := "360p" }
      ∨ SQC.calculateQualityTiers na = { tier0 := "480p", tier1 := "360p", tier2 := "360p" } := by
    match na with
    | none => right; decide
    | some a =>
      simp only [SQC.calculateQualityTiers]
      split_ifs <;> simp
  rcases hcases with h | h <;>
    · rw [h]
      unfold SQC.tierLookup
      split_ifs <;> decide

/-- C8: the stream index currently set as primary is assigned band
`tier0` in every layout, and in both multi-stream layouts the
recommendation computed for the primary index carries the highest
quality among all per-index recommendations of that layout. -/
theorem primary_promoted_to_top_band
    (layout : String) (primaryIndex : ℕ) (activeStreams : List MSS.ActiveStream)
    (na : Option MSS.Assessment)
    (h4 : primaryIndex < min 4 activeStreams.length)
    (h9 : primaryIndex < min 9 activeStreams.length) :
    SQC.getStreamTier layout primaryIndex primaryIndex = "tier0" ∧
    (∃ r ∈ SQC.optimizeGrid4Layout activeStreams na primaryIndex,
        r.streamIndex = some primaryIndex ∧
        ∀ r2 ∈ SQC.optimizeGrid4Layout activeStreams na primaryIndex,
          qualityRank r2.recommendedQuality ≤ qualityRank r.recommendedQuality) ∧
    (∃ r ∈ SQC.optimizeGrid9Layout "grid9" primaryIndex activeStreams na,
        r.streamIndex = some primaryIndex ∧
        ∀ r2 ∈ SQC.optimizeGrid9Layout "grid9" primaryIndex activeStreams na,
          qualityRank r2.recommendedQuality ≤ qualityRank r.recommendedQuality) := by
  have hlen : primaryIndex < activeStreams.length := lt_of_lt_of_le h4 (min_le_right _ _)
  have hpos : 0 < activeStreams.length := Nat.lt_of_le_of_lt (Nat.zero_le _) hlen
  have hmin : min primaryIndex (activeStreams.length - 1) = primaryIndex :=
    min_eq_left (Nat.le_sub_one_of_lt hlen)
  have htier : SQC.getStreamTier "grid9" primaryIndex primaryIndex = "tier0" := by
    simp [SQC.getStreamTier]
  have hlook : SQC.tierLookup (SQC.calculateQualityTiers na) "tier0"
      = (SQC.calculateQualityTiers na).tier0 := by
    unfold SQC.tierLookup
    rw [if_pos rfl]
  refine ⟨by simp [SQC.getStreamTier], ?_, ?_⟩
  · unfold SQC.optimizeGrid4Layout
    rw [hmin, if_pos hpos]
    refine ⟨SQC.grid4PrimaryRec na primaryIndex, by simp, rfl, ?_⟩
    intro r2 hr2
    rcases List.mem_append.mp hr2 with hr2 | hr2
    · rcases List.mem_singleton.mp hr2 with rfl
      exact le_refl _
    · rcases List.mem_map.mp hr2 with ⟨i, _, rfl⟩
      exact grid4_secondary_le_primary na
  · unfold SQC.optimizeGrid9Layout
    have hmem : primaryIndex ∈ List.range (min 9 activeStreams.length) :=
      List.mem_range.mpr h9
    refine ⟨SQC.grid9Rec "grid9" primaryIndex na primaryIndex,
      List.mem_map.mpr ⟨primaryIndex, hmem, rfl⟩, rfl, ?_⟩
    intro r2 hr2
    rcases List.mem_map.mp hr2 with ⟨i, _, rfl⟩
    show qualityRank (SQC.grid9Rec "grid9" primaryIndex na i).recommendedQuality
      ≤ qualityRank (SQC.grid9Rec "grid9" primaryIndex na primaryIndex).recommendedQuality
    unfold SQC.grid9Rec
    simp only [htier, hlook]
    exact tierLookup_le_tier0 na _

def c8Stream (id : String) : MSS.ActiveStream :=
  { id := id
    metadata := { viewIndex := 0, quality := "auto", priority := "normal" }
    currentStats :=
      { videoBitrate := 1000
        videoFps := 30
        packetLossRate := 0.5
        jitter := 20
        qualityScore := 75
        resolution := some { width := 1280, height := 720 }
        qualityStatus := "good"
        timestamp := 0 } }

def c8Streams : List MSS.ActiveStream :=
  [c8Stream "a", c8Stream "b", c8Stream "c", c8Stream "d"]

def c8Assessment : MSS.Assessment :=
  { overall := "good", bandwidth := "sufficient", stability := "stable",
    totalBandwidthUsage := 4, averageQualityScore := 75, networkStressLevel := "low" }

theorem primary_promoted_to_top_band_witness :
    2 < min 4 c8Streams.length ∧ 2 < min 9 c8Streams.length ∧
    (SQC.getStreamTier "grid4" 2 2 = "tier0" ∧
     (∃ r ∈ SQC.optimizeGrid4Layout c8Streams (some c8Assessment) 2,
        r.streamIndex = some 2 ∧
        ∀ r2 ∈ SQC.optimizeGrid4Layout c8Streams (some c8Assessment) 2,
          qualityRank r2.recommendedQuality ≤ qualityRank r.recommendedQuality) ∧
     (∃ r ∈ SQC.optimizeGrid9Layout "grid9" 2 c8Streams (some c8Assessment),
        r.streamIndex = some 2 ∧
        ∀ r2 ∈ SQC.optimizeGrid9Layout "grid9" 2 c8Streams (some c8Assessment),
          qualityRank r2.recommendedQuality ≤ qualityRank r.recommendedQuality)) :=
  ⟨by decide, by decide,
   primary_promoted_to_top_band "grid4" 2 c8Streams (some c8Assessment)
     (by decide) (by decide)⟩

/-! ### C9: duplicate registration silently replaces -/

def c9Meta1 : MSS.Metadata := { viewIndex := 0, quality := "auto", priority := "normal" }

def c9Meta2 : MSS.Metadata := { viewIndex := 1, quality := "720p", priority := "high" }

def c9Once : MSS.State := MSS.addStream MSS.emptyState "a" c9Meta1 0

def c9Twice : MSS.State := MSS.addStream c9Once "a" c9Meta2 5

/-- C9 counterexample: registering stream `a` a second time raises no
error and silently replaces the stored stream state — the map still
has one entry for `a` and it now carries the second registration's
metadata — contrary to the claimed `DuplicateStreamError` (no such
error exists anywhere in the source). -/
theorem duplicate_registration_replaces :
    ((mapGet c9Twice.streamStats "a").map fun i => i.metadata) = some c9Meta2 ∧
    c9Meta2 ≠ c9Meta1 ∧
    c9Twice.streamStats.length = 1 := by
  decide

/-- C9 (amended): `addStream` on an already-registered `streamId`
silently replaces that stream's state with a fresh record built from
the new metadata (and resets its history), leaving every other
stream's state and history untouched; no error is surfaced. -/
theorem register_replaces_and_isolates (st : MSS.State) (id : String)
    (meta : MSS.Metadata) (now : ℚ) (k : String) (hk : k ≠ id) :
    mapGet (MSS.addStream st id meta now).streamStats id
      = some { id := id, metadata := meta, currentStats := none, lastUpdate := now,
               qualityHistory := [], isActive := true } ∧
    mapGet (MSS.addStream st id meta now).streamStats k = mapGet st.streamStats k ∧
    mapGet (MSS.addStream st id meta now).historicalData id = some [] ∧
    mapGet (MSS.addStream st id meta now).historicalData k = mapGet st.historicalData k :=
  ⟨mapGet_mapSet_self _ _ _, mapGet_mapSet_ne _ _ _ _ hk,
   mapGet_mapSet_self _ _ _, mapGet_mapSet_ne _ _ _ _ hk⟩

def c9Other : MSS.State := MSS.addStream MSS.emptyState "b" c9Meta1 0

theorem register_replaces_and_isolates_witness :
    ("b" : String) ≠ "a" ∧
    (mapGet (MSS.addStream c9Other "a" c9Meta2 5).streamStats "a"
      = some { id := "a", metadata := c9Meta2, currentStats := none, lastUpdate := 5,
               qualityHistory := [], isActive := true } ∧
     mapGet (MSS.addStream c9Other "a" c9Meta2 5).streamStats "b"
      = mapGet c9Other.streamStats "b" ∧
     mapGet (MSS.addStream c9Other "a" c9Meta2 5).historicalData "a" = some [] ∧
     mapGet (MSS.addStream c9Other "a" c9Meta2 5).historicalData "b"
      = mapGet c9Other.historicalData "b") :=
  ⟨by decide,
   register_replaces_and_isolates c9Other "a" c9Meta2 5 "b" (by decide)⟩

/-! ### C10: unregistering a stream -/

theorem mem_mapDelete {α : Type} {m : List (String × α)} {k : String} {p : String × α}
    (h : p ∈ mapDelete m k) : p ∈ m ∧ p.1 ≠ k := by
  unfold mapDelete at h
  have h2 := List.mem_filter.mp h
  exact ⟨h2.1, by simpa using h2.2⟩

theorem removeStream_of_none (st : MSS.State) (id : String)
    (h : mapGet st.streamStats id = none) : MSS.removeStream st id = st := by
  unfold MSS.removeStream
  rw [h]

theorem removeStream_streamStats_sub (st : MSS.State) (id : String) :
    ∀ p ∈ (MSS.removeStream st id).streamStats, p ∈ st.streamStats := by
  intro p hp
  unfold MSS.removeStream at hp
  cases hg : mapGet st.streamStats id with
  | some v =>
    rw [hg] at hp
    exact (mem_mapDelete hp).1
  | none =>
    rw [hg] at hp
    exact hp

theorem removeStream_no_key (st : MSS.State) (id : String) :
    ∀ p ∈ (MSS.removeStream st id).streamStats, p.1 ≠ id := by
  intro p hp
  unfold MSS.removeStream at hp
  cases hg : mapGet st.streamStats id with
  | some v =>
    rw [hg] at hp
    exact (mem_mapDelete hp).2
  | none =>
    rw [hg] at hp
    intro heq
    unfold mapGet at hg
    have hfind := Option.map_eq_none.mp hg
    have := List.find?_eq_none.mp hfind p hp
    simp [heq] at this

theorem removeStream_mapGet_none (st : MSS.State) (id : String) :
    mapGet (MSS.removeStream st id).streamStats id = none := by
  unfold MSS.removeStream
  cases hg : mapGet st.streamStats id with
  | some v => simpa using mapGet_mapDelete_self st.streamStats id
  | none => simpa using hg

theorem generateStreamRecommendation_streamId (st : MSS.State) (now : ℚ)
    (stream : MSS.ActiveStream) (r : MSS.Rec)
    (h : (MSS.generateStreamRecommendation st now stream).1 = some r) :
    r.streamId = some stream.id := by
  unfold MSS.generateStreamRecommendation at h
  split at h
  · simp at h
  · cases hp : MSS.pickQuality st stream with
    | none => rw [hp] at h; simp at h
    | some v =>
      obtain ⟨rq, rs, cf⟩ := v
      rw [hp] at h
      simp only [Option.some.injEq] at h
      rw [← h]

theorem streamRecsAux_streamId (now : ℚ) (l : List MSS.ActiveStream) :
    ∀ (st : MSS.State) (r : MSS.Rec), r ∈ (MSS.streamRecsAux st now l).1 →
      ∃ s ∈ l, r.streamId = some s.id := by
  induction l with
  | nil =>
    intro st r h
    simp [MSS.streamRecsAux] at h
  | cons s rest ih =>
    intro st r h
    unfold MSS.streamRecsAux at h
    cases hg : MSS.generateStreamRecommendation st now s with
    | mk fst snd =>
      rw [hg] at h
      cases fst with
      | some r0 =>
        simp only [List.mem_cons] at h
        rcases h with rfl | h2
        · exact ⟨s, List.mem_cons_self s rest,
            generateStreamRecommendation_streamId st now s r (by rw [hg])⟩
        · obtain ⟨s2, hs2, hid⟩ := ih snd r h2
          exact ⟨s2, List.mem_cons_of_mem s hs2, hid⟩
      | none =>
        obtain ⟨s2, hs2, hid⟩ := ih snd r h
        exact ⟨s2, List.mem_cons_of_mem s hs2, hid⟩

theorem generateGlobalOptimization_streamId (cfg : MSS.Config) (now : ℚ)
    (l : List MSS.ActiveStream) (r : MSS.Rec)
    (h : MSS.generateGlobalOptimization cfg now l = some r) : r.streamId = none := by
  unfold MSS.generateGlobalOptimization at h
  split_ifs at h
  · cases h
    rfl
  · cases h
    rfl

theorem getActiveStreams_id_mem (st2 : MSS.State) (s : MSS.ActiveStream)
    (hs : s ∈ MSS.getActiveStreams st2) :
    ∃ p ∈ st2.streamStats, s.id = p.2.id := by
  unfold MSS.getActiveStreams at hs
  rcases List.mem_filterMap.mp hs with ⟨p, hp, hf⟩
  refine ⟨p, hp, ?_⟩
  cases hcs : p.2.currentStats with
  | none => rw [hcs] at hf; simp at hf
  | some stats =>
    rw [hcs] at hf
    simp only at hf
    split at hf
    · cases hf
      rfl
    · simp at hf

/-- C10 counterexample data: one registered stream with one history
entry. -/
def c10Stats : MSS.Stats :=
  { videoBitrate := 900
    videoFps := 24
    packetLossRate := 1
    jitter := 20
    qualityScore := 70
    resolution := some { width := 1280, height := 720 }
    qualityStatus := "good"
    timestamp := 10 }

def c10Info : MSS.StreamInfo :=
  { id := "a"
    metadata := { viewIndex := 0, quality := "auto", priority := "normal" }
    currentStats := some c10Stats
    lastUpdate := 10
    qualityHistory := []
    isActive := true }

def c10State : MSS.State :=
  { streamStats := [("a", c10Info)]
    historicalData := [("a", [c10Stats])]
    aggregatedStats := none
    lastRecommendations := []
    config := MSS.defaultConfig }

/-- C10 counterexample: `removeStream("a")` drops the stream state but
does NOT remove its history: the `historicalData` entry for `a`
survives, while the claim says state and history are both removed. -/
theorem unregister_keeps_history_counterexample :
    mapGet (MSS.removeStream c10State "a").streamStats "a" = none ∧
    mapGet (MSS.removeStream c10State "a").historicalData "a" = some [c10Stats] := by
  decide

/-- C10 (amended): `removeStream` is idempotent and removes the
stream's state, but the stream's rolling history stays in
`historicalData` (the claim said the history is removed too); after
removal, for a state whose map keys agree with the stored ids, no
active stream — hence no aggregated view built from them — and no
generated recommendation references the removed id. -/
theorem unregister_idempotent_no_orphans (st : MSS.State) (id : String) (now : ℚ)
    (hwf : ∀ p ∈ st.streamStats, p.2.id = p.1) :
    MSS.removeStream (MSS.removeStream st id) id = MSS.removeStream st id ∧
    mapGet (MSS.removeStream st id).streamStats id = none ∧
    (MSS.removeStream st id).historicalData = st.historicalData ∧
    (∀ s ∈ MSS.getActiveStreams (MSS.removeStream st id), s.id ≠ id) ∧
    (∀ r ∈ (MSS.generateQualityRecommendations (MSS.removeStream st id) now
        (MSS.getActiveStreams (MSS.removeStream st id))).1, r.streamId ≠ some id) := by
  have hnone := removeStream_mapGet_none st id
  have hactive : ∀ s ∈ MSS.getActiveStreams (MSS.removeStream st id), s.id ≠ id := by
    intro s hs
    obtain ⟨p, hp, hid⟩ := getActiveStreams_id_mem _ s hs
    rw [hid, hwf p (removeStream_streamStats_sub st id p hp)]
    exact removeStream_no_key st id p hp
  refine ⟨removeStream_of_none _ _ hnone, hnone, ?_, hactive, ?_⟩
  · unfold MSS.removeStream
    cases hg : mapGet st.streamStats id <;> rfl
  · intro r hr
    unfold MSS.generateQualityRecommendations at hr
    have hper : r ∈ (MSS.streamRecsAux (MSS.removeStream st id) now
        (MSS.getActiveStreams (MSS.removeStream st id))).1 → r.streamId ≠ some id := by
      intro hmem
      obtain ⟨s, hs, hid⟩ := streamRecsAux_streamId now _ _ r hmem
      rw [hid]
      intro hc
      exact hactive s hs (by simpa using hc)
    cases hg : MSS.generateGlobalOptimization (MSS.streamRecsAux (MSS.removeStream st id) now
        (MSS.getActiveStreams (MSS.removeStream st id))).2.config now
        (MSS.getActiveStreams (MSS.removeStream st id)) with
    | some g =>
      rw [hg] at hr
      simp only [List.mem_append, List.mem_singleton] at hr
      rcases hr with hr | rfl
      · exact hper hr
      · rw [generateGlobalOptimization_streamId _ _ _ _ hg]
        simp
    | none =>
      rw [hg] at hr
      exact hper hr

theorem unregister_idempotent_no_orphans_witness :
    (∀ p ∈ c10State.streamStats, p.2.id = p.1) ∧
    (MSS.removeStream (MSS.removeStream c10State "a") "a" = MSS.removeStream c10State "a" ∧
     mapGet (MSS.removeStream c10State "a").streamStats "a" = none ∧
     (MSS.removeStream c10State "a").historicalData = c10State.historicalData ∧
     (∀ s ∈ MSS.getActiveStreams (MSS.removeStream c10State "a"), s.id ≠ "a") ∧
     (∀ r ∈ (MSS.generateQualityRecommendations (MSS.removeStream c10State "a") 20
         (MSS.getActiveStreams (MSS.removeStream c10State "a"))).1,
        r.streamId ≠ some "a")) :=
  ⟨by decide,
   unregister_idempotent_no_orphans c10State "a" 20 (by decide)⟩

end PingTest